import Mathlib

/-!
Verification development for the userservice engagement-ledger engine
(src/src/server.rs).

Modelling conventions:
* Timestamps (chrono::NaiveDateTime) and durations (chrono::Duration) are
  modelled as mathematical integers counting nanoseconds.
* A Rust function that can panic is modelled with an Option result;
  none models a panic (unwrap on None / todo!()).
* The i32 cast in the source (as i32) is modelled by asI32, which wraps
  into the signed 32-bit range.
* The users table is modelled as a list of User rows; the repository
  primitives of models.rs (not part of src/) are modelled from the spec.
-/

/-- The User row, fields as in the spec data model (section 3.1) and as
used by src/src/server.rs. Timestamps are nanoseconds since the epoch. -/
structure User where
  channel_id : String
  display_name : String
  hours_seconds : Int
  hours_nanos : Int
  money : Int
  first_seen_at : Int
  last_seen_at : Int
deriving DecidableEq, Repr

/-- An inbound chat message; the ingest loop reads channel_id and
display_name. -/
structure ChatMessage where
  channel_id : String
  display_name : String
deriving DecidableEq, Repr

/-- chrono Duration::seconds: a whole-second count as nanoseconds. -/
def secondsToNanos (s : Int) : Int := s * 1000000000

/-- chrono Duration::num_seconds: total whole seconds of a duration,
truncating toward zero. -/
def numSeconds (t : Int) : Int := t.tdiv 1000000000

/-- chrono Duration::num_minutes: total whole minutes, truncating toward
zero (num_seconds divided by 60 with Rust integer division). -/
def numMinutes (t : Int) : Int := (numSeconds t).tdiv 60

/-- chrono Duration::num_nanoseconds: total nanoseconds as an i64, or
none when the value overflows the i64 range. -/
def numNanoseconds (t : Int) : Option Int :=
  if -9223372036854775808 ≤ t ∧ t ≤ 9223372036854775807 then some t else none

/-- The Rust cast (n as i32): wrap an integer into the signed 32-bit
range. -/
def asI32 (n : Int) : Int :=
  let r := n % 4294967296
  if r < 2147483648 then r else r - 4294967296

/-- Embedding of calculate_hours_and_money (src/src/server.rs lines
66-94).  The accumulated watch time and the gap since last_seen_at are
composed as one duration; num_seconds and num_nanoseconds of that total
are stored back, the nanoseconds through an i32 cast; money grows by the
whole minutes of the gap.  The unwrap on num_nanoseconds makes the
function partial: none models the panic. -/
def calculate_hours_and_money (user : User) (now : Int) : Option User :=
  let hours_duration := secondsToNanos user.hours_seconds + user.hours_nanos
  let new_duration := now - user.last_seen_at
  let hours := hours_duration + new_duration
  let new_hours_seconds := numSeconds hours
  match numNanoseconds hours with
  | none => none
  | some ns =>
    some { user with
      hours_seconds := new_hours_seconds,
      hours_nanos := asI32 ns,
      money := user.money + numMinutes new_duration }

/-- Modelled from the spec: User repository create (models.rs is not in
src/).  Constructs the in-memory row; argument order as at the call site
in fetch_users_from_messages. -/
def User.new (channel_id display_name : String)
    (hours_seconds hours_nanos money : Int)
    (first_seen_at last_seen_at : Int) : User :=
  { channel_id := channel_id, display_name := display_name,
    hours_seconds := hours_seconds, hours_nanos := hours_nanos,
    money := money, first_seen_at := first_seen_at,
    last_seen_at := last_seen_at }

/-- Modelled from the spec: User::check_if_exists (models.rs is not in
src/), a key lookup on the users table. -/
def check_if_exists (cid : String) (store : List User) : Bool :=
  store.any (fun u => u.channel_id == cid)

/-- Modelled from the spec: User::get_from_database (models.rs is not in
src/), load of the persisted row by channel_id. -/
def get_from_database (cid : String) (store : List User) : Option User :=
  store.find? (fun u => u.channel_id == cid)

/-- Modelled from the spec: User::save_to_database (models.rs is not in
src/), a single-row upsert keyed by channel_id: update the row when it
exists, insert it otherwise. -/
def save_to_database (store : List User) (u : User) : List User :=
  if check_if_exists u.channel_id store then
    store.map (fun v => if v.channel_id == u.channel_id then u else v)
  else
    store ++ [u]

/-- chrono Duration::minutes(5) in nanoseconds: the idle threshold used
by the ingest loop (src/src/server.rs line 132). -/
def IDLE_THRESHOLD : Int := 300000000000

/-- Embedding of the per-message body of fetch_users_from_messages
(src/src/server.rs lines 105-138): load or create the user, overwrite
display_name, set last_seen_at to now, then test
last_seen_at + IDLE_THRESHOLD < now (on the already-updated field, as the
source does) and invoke the calculator if it holds, finally upsert.
none models a panic. -/
def processMessage (store : List User) (message : ChatMessage)
    (now : Int) : Option (List User) :=
  let loaded : Option User :=
    if check_if_exists message.channel_id store then
      get_from_database message.channel_id store
    else
      some (User.new message.channel_id message.display_name 0 0 0 now now)
  match loaded with
  | none => none
  | some user0 =>
    let user1 := { user0 with display_name := message.display_name }
    let user2 := { user1 with last_seen_at := now }
    let afterAccrual : Option User :=
      if user2.last_seen_at + IDLE_THRESHOLD < now then
        calculate_hours_and_money user2 now
      else
        some user2
    match afterAccrual with
    | none => none
    | some user3 => some (save_to_database store user3)

/-! ## Query surface (src/src/server.rs lines 143-344) -/

/-- gRPC status kinds surfaced by the handlers. -/
inductive GrpcStatus where
  | notFound
  | internal
  | unimplemented
deriving DecidableEq, Repr

/-- Modelled from the spec: a GroupView carries the group name, its
permission strings and its member users (as channel ids); the proto
schema is not in src/. -/
structure BppGroup where
  name : String
  permissions : List String
  members : List String
deriving DecidableEq, Repr

/-- The externally visible user shape (UserView): the user fields plus
the group enrichment. -/
structure BppUser where
  channel_id : String
  display_name : String
  hours_seconds : Int
  hours_nanos : Int
  money : Int
  first_seen_at : Int
  last_seen_at : Int
  groups : List BppGroup
deriving DecidableEq, Repr

/-- Modelled from the spec: to_userservice_user (models.rs is not in
src/) projects a User into the view shape, enriching it with the user's
groups; the group lookup is abstracted as the groupsOf parameter. -/
def to_userservice_user (groupsOf : String → List BppGroup) (u : User) : BppUser :=
  { channel_id := u.channel_id, display_name := u.display_name,
    hours_seconds := u.hours_seconds, hours_nanos := u.hours_nanos,
    money := u.money, first_seen_at := u.first_seen_at,
    last_seen_at := u.last_seen_at, groups := groupsOf u.channel_id }

/-- The oneof inside a filter clause (bpp_user_filter::Filter). -/
inductive UserFilterVariant where
  | channelIdEq (s : String)
  | nameEq (s : String)
  | hoursEq (n : Int)
  | moneyEq (n : Int)
deriving DecidableEq, Repr

/-- One filter clause; the oneof field is optional at the wire level,
hence the Option. -/
structure BppUserFilter where
  filter : Option UserFilterVariant
deriving DecidableEq, Repr

/-- Sort orders of FilterUsers (bpp_user_filters::SortingFields). -/
inductive SortingFields where
  | hoursAsc
  | hoursDesc
  | moneyAsc
  | moneyDesc
  | defaultOrder
deriving DecidableEq, Repr

/-- The FilterUsers request: a list of clauses and a sort order. -/
structure BppUserFilters where
  filters : List BppUserFilter
  sorting : SortingFields
deriving DecidableEq, Repr

/-- The FilterUsers response. count is an i32 in the proto, hence the
cast at construction. -/
structure BppUsers where
  users : List BppUser
  count : Int
deriving DecidableEq, Repr

/-- The predicate a present filter clause adds to the query (the match
in filter_users, src/src/server.rs lines 178-191). -/
def filterPred : UserFilterVariant → User → Bool
  | .channelIdEq s, u => u.channel_id == s
  | .nameEq s, u => u.display_name == s
  | .hoursEq n, u => u.hours_seconds == n
  | .moneyEq n, u => u.money == n

/-- The for loop of filter_users: each clause's inner oneof is
unwrapped (none models the panic on an absent variant) and its predicate
accumulated onto the query. -/
def buildPreds : List BppUserFilter → Option (List (User → Bool))
  | [] => some []
  | f :: fs =>
    match f.filter with
    | none => none
    | some v =>
      match buildPreds fs with
      | none => none
      | some ps => some (filterPred v :: ps)

/-- The comparison the store sorts with for a given sort order; none for
the default (no ORDER BY). -/
def leFor : SortingFields → Option (User → User → Bool)
  | .hoursAsc => some (fun a b => decide (a.hours_seconds ≤ b.hours_seconds))
  | .hoursDesc => some (fun a b => decide (b.hours_seconds ≤ a.hours_seconds))
  | .moneyAsc => some (fun a b => decide (a.money ≤ b.money))
  | .moneyDesc => some (fun a b => decide (b.money ≤ a.money))
  | .defaultOrder => none

/-- Insertion into a sorted list, used to model the store's ORDER BY. -/
def insertSorted (le : User → User → Bool) (u : User) : List User → List User
  | [] => [u]
  | v :: vs => if le u v then u :: v :: vs else v :: insertSorted le u vs

/-- Insertion sort modelling the store's ORDER BY execution. -/
def sortBy (le : User → User → Bool) : List User → List User
  | [] => []
  | u :: us => insertSorted le u (sortBy le us)

/-- Apply the requested sort order to the loaded rows. -/
def applySorting (s : SortingFields) (l : List User) : List User :=
  match leFor s with
  | none => l
  | some le => sortBy le l

/-- Spec-side formulation of the AND-combination of the filter clauses:
a row matches when every present clause's equality holds of it. -/
def matchesAllFilters (fs : List BppUserFilter) (u : User) : Bool :=
  fs.all fun f =>
    match f.filter with
    | some v => filterPred v u
    | none => true

/-- Embedding of the filter_users handler (src/src/server.rs lines
166-220).  The db argument is the store's answer to the composed query:
either the users table (the query then executes as filter plus sort over
it) or a read failure.  The clause predicates are built first, as in the
source's for loop, so an absent oneof panics (none) before the store is
consulted; a read failure becomes an internal status; otherwise the
views are returned with their count as an i32. -/
def filter_users (groupsOf : String → List BppGroup)
    (db : Except Unit (List User)) (req : BppUserFilters) :
    Option (Except GrpcStatus BppUsers) :=
  match buildPreds req.filters with
  | none => none
  | some preds =>
    match db with
    | .error _ => some (.error GrpcStatus.internal)
    | .ok table =>
      let rows := applySorting req.sorting
        (table.filter (fun u => preds.all (fun p => p u)))
      let views := rows.map (to_userservice_user groupsOf)
      some (.ok { users := views, count := asI32 views.length })

/-! ## Administrative endpoints (src/src/server.rs lines 222-344)

Every one of them is a todo-stub in the source: the handler panics
before touching the store.  Each is modelled as returning the store
unchanged paired with none (the panic); a response would be some. -/

/-- Modelled from the spec: the UserHasPermission request shape. -/
structure UserPermissionCheck where
  channel_id : String
  permission : String
deriving DecidableEq, Repr

/-- Modelled from the spec: list-of-users message. -/
structure BppUsersMsg where
  users : List BppUser
deriving DecidableEq, Repr

/-- Modelled from the spec: list-of-groups message. -/
structure BppGroups where
  groups : List BppGroup
deriving DecidableEq, Repr

/-- Modelled from the spec: group-creation request. -/
structure CreateBppGroup where
  name : String
deriving DecidableEq, Repr

/-- Modelled from the spec: a rank message. -/
structure BppRank where
  name : String
deriving DecidableEq, Repr

/-- Modelled from the spec: list-of-ranks message. -/
structure BppRanks where
  ranks : List BppRank
deriving DecidableEq, Repr

/-- Modelled from the spec: rank-creation request. -/
structure CreateBppRank where
  name : String
deriving DecidableEq, Repr

/-- update_user stub: panics (todo), writes nothing. -/
def update_user (store : List User) (_request : BppUser) :
    List User × Option (Except GrpcStatus BppUser) := (store, none)

/-- update_users stub: panics (todo), writes nothing. -/
def update_users (store : List User) (_request : BppUsersMsg) :
    List User × Option (Except GrpcStatus BppUsersMsg) := (store, none)

/-- delete_user stub: panics (todo), writes nothing. -/
def delete_user (store : List User) (_request : BppUser) :
    List User × Option (Except GrpcStatus Unit) := (store, none)

/-- delete_users stub: panics (todo), writes nothing. -/
def delete_users (store : List User) (_request : BppUsersMsg) :
    List User × Option (Except GrpcStatus Unit) := (store, none)

/-- create_user stub: panics (todo), writes nothing. -/
def create_user (store : List User) (_request : BppUser) :
    List User × Option (Except GrpcStatus BppUser) := (store, none)

/-- user_has_permission stub: panics (todo), writes nothing. -/
def user_has_permission (store : List User) (_request : UserPermissionCheck) :
    List User × Option (Except GrpcStatus Bool) := (store, none)

/-- get_groups stub: panics (todo), writes nothing. -/
def get_groups (store : List User) (_request : Unit) :
    List User × Option (Except GrpcStatus BppGroups) := (store, none)

/-- update_group stub: panics (todo), writes nothing. -/
def update_group (store : List User) (_request : BppGroup) :
    List User × Option (Except GrpcStatus BppGroup) := (store, none)

/-- update_groups stub: panics (todo), writes nothing. -/
def update_groups (store : List User) (_request : BppGroups) :
    List User × Option (Except GrpcStatus BppGroups) := (store, none)

/-- delete_group stub: panics (todo), writes nothing. -/
def delete_group (store : List User) (_request : BppGroup) :
    List User × Option (Except GrpcStatus Unit) := (store, none)

/-- delete_groups stub: panics (todo), writes nothing. -/
def delete_groups (store : List User) (_request : BppGroups) :
    List User × Option (Except GrpcStatus Unit) := (store, none)

/-- create_group stub: panics (todo), writes nothing. -/
def create_group (store : List User) (_request : CreateBppGroup) :
    List User × Option (Except GrpcStatus BppGroup) := (store, none)

/-- get_ranks stub: panics (todo), writes nothing. -/
def get_ranks (store : List User) (_request : Unit) :
    List User × Option (Except GrpcStatus BppRanks) := (store, none)

/-- update_rank stub: panics (todo), writes nothing. -/
def update_rank (store : List User) (_request : BppRank) :
    List User × Option (Except GrpcStatus BppRank) := (store, none)

/-- update_ranks stub: panics (todo), writes nothing. -/
def update_ranks (store : List User) (_request : BppRanks) :
    List User × Option (Except GrpcStatus BppRanks) := (store, none)

/-- delete_rank stub: panics (todo), writes nothing. -/
def delete_rank (store : List User) (_request : BppRank) :
    List User × Option (Except GrpcStatus Unit) := (store, none)

/-- delete_ranks stub: panics (todo), writes nothing. -/
def delete_ranks (store : List User) (_request : BppRanks) :
    List User × Option (Except GrpcStatus Unit) := (store, none)

/-- create_rank stub: panics (todo), writes nothing. -/
def create_rank (store : List User) (_request : CreateBppRank) :
    List User × Option (Except GrpcStatus BppRank) := (store, none)

/-! ## Store lemmas -/

theorem channel_of_get (s : List User) (cid : String) (u : User)
    (h : get_from_database cid s = some u) : u.channel_id = cid := by
  unfold get_from_database at h
  have hp := List.find?_some (p := fun (v : User) => v.channel_id == cid) h
  simpa using hp

theorem check_true_of_get (s : List User) (cid : String) (u : User)
    (h : get_from_database cid s = some u) : check_if_exists cid s = true := by
  unfold get_from_database at h
  have hmem : u ∈ s := List.mem_of_find?_eq_some h
  have hp := List.find?_some (p := fun (v : User) => v.channel_id == cid) h
  unfold check_if_exists
  rw [List.any_eq_true]
  exact ⟨u, hmem, hp⟩

theorem get_isSome_of_check (s : List User) (cid : String)
    (h : check_if_exists cid s = true) :
    ∃ u, get_from_database cid s = some u := by
  unfold check_if_exists at h
  obtain ⟨u, hmem, hp⟩ := List.any_eq_true.1 h
  have : (get_from_database cid s).isSome := by
    unfold get_from_database
    exact List.find?_isSome.2 ⟨u, hmem, hp⟩
  exact Option.isSome_iff_exists.1 this

theorem find?_replace_self (u : User) : ∀ s : List User,
    s.any (fun v => v.channel_id == u.channel_id) = true →
    (s.map (fun v => if v.channel_id == u.channel_id then u else v)).find?
      (fun v => v.channel_id == u.channel_id) = some u := by
  intro s
  induction s with
  | nil => intro h; simp at h
  | cons v vs ih =>
    intro h
    by_cases hv : (v.channel_id == u.channel_id) = true
    · simp only [List.map_cons, if_pos hv]
      exact List.find?_cons_of_pos
        (p := fun (w : User) => w.channel_id == u.channel_id) _ (by simp)
    · simp only [List.map_cons, if_neg hv]
      rw [List.find?_cons_of_neg
        (p := fun (w : User) => w.channel_id == u.channel_id) _ (by simp [hv])]
      apply ih
      simpa [List.any_cons, hv] using h

theorem find?_replace_other (u : User) (cid : String)
    (h : (u.channel_id == cid) = false) : ∀ s : List User,
    (s.map (fun v => if v.channel_id == u.channel_id then u else v)).find?
      (fun v => v.channel_id == cid) = s.find? (fun v => v.channel_id == cid) := by
  intro s
  induction s with
  | nil => rfl
  | cons v vs ih =>
    by_cases hv : (v.channel_id == u.channel_id) = true
    · have hvu : v.channel_id = u.channel_id := by simpa using hv
      have hvc : (v.channel_id == cid) = false := by rw [hvu]; exact h
      simp only [List.map_cons, if_pos hv]
      rw [List.find?_cons_of_neg
        (p := fun (w : User) => w.channel_id == cid) _ (by simp [h]),
        List.find?_cons_of_neg
        (p := fun (w : User) => w.channel_id == cid) _ (by simp [hvc])]
      exact ih
    · simp only [List.map_cons, if_neg hv]
      by_cases hvc : (v.channel_id == cid) = true
      · rw [List.find?_cons_of_pos
          (p := fun (w : User) => w.channel_id == cid) _ hvc,
          List.find?_cons_of_pos
          (p := fun (w : User) => w.channel_id == cid) _ hvc]
      · rw [List.find?_cons_of_neg
          (p := fun (w : User) => w.channel_id == cid) _ (by simp [hvc]),
          List.find?_cons_of_neg
          (p := fun (w : User) => w.channel_id == cid) _ (by simp [hvc])]
        exact ih

theorem get_save_self (s : List User) (u : User) :
    get_from_database u.channel_id (save_to_database s u) = some u := by
  unfold save_to_database get_from_database
  by_cases hc : check_if_exists u.channel_id s
  · rw [if_pos hc]
    exact find?_replace_self u s hc
  · rw [if_neg hc]
    rw [List.find?_append]
    have h1 : List.find? (fun (v : User) => v.channel_id == u.channel_id) s = none := by
      rw [List.find?_eq_none]
      intro x hx hp
      exact hc (List.any_eq_true.2 ⟨x, hx, hp⟩)
    rw [h1]
    simp [List.find?]

theorem get_save_other (s : List User) (u : User) (cid : String)
    (h : cid ≠ u.channel_id) :
    get_from_database cid (save_to_database s u) = get_from_database cid s := by
  have hbeq : (u.channel_id == cid) = false := by
    cases hh : u.channel_id == cid
    · rfl
    · exact absurd (by simpa using hh : u.channel_id = cid) (fun h2 => h h2.symm)
  unfold save_to_database get_from_database
  by_cases hc : check_if_exists u.channel_id s
  · rw [if_pos hc]
    exact find?_replace_other u cid hbeq s
  · rw [if_neg hc]
    rw [List.find?_append]
    cases hfs : List.find? (fun (v : User) => v.channel_id == cid) s
    · simp [List.find?, hbeq]
    · rfl

/-! ## Ingest-step lemmas

In the source the active-session test reads last_seen_at after step 6
has already set it to now, so the tested condition is
now + IDLE_THRESHOLD < now, which never holds: the saved row is always
the loaded (or fresh) row with only display_name and last_seen_at
overwritten. -/

theorem processMessage_existing (s : List User) (m : ChatMessage) (t : Int)
    (u : User) (h : get_from_database m.channel_id s = some u) :
    processMessage s m t = some (save_to_database s
      { u with display_name := m.display_name, last_seen_at := t }) := by
  have hc : check_if_exists m.channel_id s = true := check_true_of_get s m.channel_id u h
  have hcond : ¬ (t + IDLE_THRESHOLD < t) := by unfold IDLE_THRESHOLD; omega
  simp only [processMessage, hc, if_true, h, hcond, if_neg, ite_false]

theorem processMessage_new (s : List User) (m : ChatMessage) (t : Int)
    (h : check_if_exists m.channel_id s = false) :
    processMessage s m t = some (save_to_database s
      (User.new m.channel_id m.display_name 0 0 0 t t)) := by
  have hcond : ¬ (t + IDLE_THRESHOLD < t) := by unfold IDLE_THRESHOLD; omega
  simp only [processMessage, h, Bool.false_eq_true, if_false, hcond, ite_false, User.new]

theorem processMessage_tracks (s : List User) (m : ChatMessage) (t : Int)
    (s' : List User) (h : processMessage s m t = some s') :
    ∃ w, get_from_database m.channel_id s' = some w ∧
      (∀ v, get_from_database m.channel_id s = some v →
        w = { v with display_name := m.display_name, last_seen_at := t }) ∧
      (check_if_exists m.channel_id s = false →
        w = User.new m.channel_id m.display_name 0 0 0 t t) ∧
      (∀ cid, cid ≠ m.channel_id → get_from_database cid s' = get_from_database cid s) := by
  by_cases hc : check_if_exists m.channel_id s = true
  · obtain ⟨v, hv⟩ := get_isSome_of_check s m.channel_id hc
    rw [processMessage_existing s m t v hv] at h
    have hs : s' = save_to_database s
        { v with display_name := m.display_name, last_seen_at := t } :=
      (Option.some.inj h).symm
    subst hs
    have hcv : v.channel_id = m.channel_id := channel_of_get s m.channel_id v hv
    refine ⟨{ v with display_name := m.display_name, last_seen_at := t }, ?_, ?_, ?_, ?_⟩
    · have h2 : get_from_database v.channel_id (save_to_database s
          { v with display_name := m.display_name, last_seen_at := t })
          = some { v with display_name := m.display_name, last_seen_at := t } :=
        get_save_self s { v with display_name := m.display_name, last_seen_at := t }
      rw [← hcv]
      exact h2
    · intro v2 hv2
      rw [hv] at hv2
      cases hv2
      rfl
    · intro hfalse
      rw [hc] at hfalse
      cases hfalse
    · intro cid hcid
      have hne : cid ≠ v.channel_id := by rw [hcv]; exact hcid
      exact get_save_other s _ cid hne
  · have hcf : check_if_exists m.channel_id s = false := by simpa using hc
    rw [processMessage_new s m t hcf] at h
    have hs : s' = save_to_database s
        (User.new m.channel_id m.display_name 0 0 0 t t) :=
      (Option.some.inj h).symm
    subst hs
    refine ⟨User.new m.channel_id m.display_name 0 0 0 t t, ?_, ?_, ?_, ?_⟩
    · exact get_save_self s (User.new m.channel_id m.display_name 0 0 0 t t)
    · intro v2 hv2
      exact absurd (check_true_of_get s m.channel_id v2 hv2) hc
    · intro _
      rfl
    · intro cid hcid
      exact get_save_other s _ cid hcid

/-! ## Claim theorems

Concrete User rows below are written with the anonymous constructor; the
field order is channel_id, display_name, hours_seconds, hours_nanos,
money, first_seen_at, last_seen_at. -/

/-- C1: the claim says the engagement calculator runs if and only if the
pre-update last_seen_at plus the 5-minute idle threshold is strictly
before now, and in particular runs for a gap above the threshold.  In
the source, last_seen_at is overwritten with now before the comparison,
so the calculator never runs: an existing user whose last contact was 7
minutes ago (gap 420 s, above the threshold, so the claim demands
accrual) is saved with hours_seconds and money still 0 and only
display_name and last_seen_at touched. -/
theorem c1_calculator_never_invoked :
    processMessage [(⟨"c1", "Alice", 0, 0, 0, 0, 0⟩ : User)]
      (⟨"c1", "Alice"⟩ : ChatMessage) 420000000000
      = some [(⟨"c1", "Alice", 0, 0, 0, 0, 420000000000⟩ : User)]
    ∧ (0 : Int) + IDLE_THRESHOLD < 420000000000 := by
  exact ⟨by decide, by decide⟩

/-- C2: the claim says calculate_hours_and_money leaves hours_nanos
equal to the sub-second remainder of the accumulated duration, inside
[0, 10^9).  The source stores the total nanoseconds of the duration cast
to i32 instead: for a fresh user and a gap of 1.5 s the total is
1500000000 ns, the sub-second remainder would be 500000000, but the
field receives 1500000000, outside [0, 10^9). -/
theorem c2_nanos_not_remainder :
    calculate_hours_and_money (⟨"c1", "Alice", 0, 0, 0, 0, 0⟩ : User) 1500000000
      = some (⟨"c1", "Alice", 1, 1500000000, 0, 0, 0⟩ : User)
    ∧ ¬ ((1500000000 : Int) < 1000000000) := by
  exact ⟨by decide, by decide⟩

/-- C3: scenario S3 of the spec: an existing user last seen at T0 = 0
receives a message at now = T0 + 10 min; the claim expects
hours_seconds = 600, hours_nanos = 0, money = 10.  Because the source
overwrites last_seen_at before testing the idle threshold, no accrual
happens: the row keeps hours_seconds = 0, hours_nanos = 0, money = 0 and
only last_seen_at moves to T0 + 10 min. -/
theorem c3_s3_scenario_no_accrual :
    processMessage [(⟨"c1", "Alice", 0, 0, 0, 0, 0⟩ : User)]
      (⟨"c1", "Alice"⟩ : ChatMessage) 600000000000
      = some [(⟨"c1", "Alice", 0, 0, 0, 0, 600000000000⟩ : User)] := by
  decide

/-- C4: for two messages for the same channel_id processed in order by
the ingest loop, the stored hours_seconds and money after the second
message are at least their values after the first.  In the source they
are in fact unchanged by every message to an existing user, so the
non-decrease holds. -/
theorem c4_ingest_monotonic (s : List User) (m1 m2 : ChatMessage)
    (t1 t2 : Int) (s1 s2 : List User)
    (hch : m1.channel_id = m2.channel_id)
    (h1 : processMessage s m1 t1 = some s1)
    (h2 : processMessage s1 m2 t2 = some s2) :
    ∃ u1 u2, get_from_database m1.channel_id s1 = some u1 ∧
      get_from_database m1.channel_id s2 = some u2 ∧
      u1.hours_seconds ≤ u2.hours_seconds ∧ u1.money ≤ u2.money := by
  obtain ⟨u1, hu1, _, _, _⟩ := processMessage_tracks s m1 t1 s1 h1
  obtain ⟨u2, hu2, hupd2, _, _⟩ := processMessage_tracks s1 m2 t2 s2 h2
  have hu1m2 : get_from_database m2.channel_id s1 = some u1 := by
    rw [← hch]; exact hu1
  have hu2eq := hupd2 u1 hu1m2
  refine ⟨u1, u2, hu1, ?_, ?_, ?_⟩
  · rw [hch]; exact hu2
  · rw [hu2eq]
  · rw [hu2eq]

/-- C4 witness: two messages for channel c1, into an empty store at
t = 0 and then at t = 1; both resulting rows carry hours_seconds 0 and
money 0, so the non-decrease is exhibited. -/
theorem c4_ingest_monotonic_witness :
    processMessage [] (⟨"c1", "Alice"⟩ : ChatMessage) 0
      = some [(⟨"c1", "Alice", 0, 0, 0, 0, 0⟩ : User)]
    ∧ processMessage [(⟨"c1", "Alice", 0, 0, 0, 0, 0⟩ : User)]
        (⟨"c1", "Alice"⟩ : ChatMessage) 1
      = some [(⟨"c1", "Alice", 0, 0, 0, 0, 1⟩ : User)]
    ∧ ∃ u1 u2,
        get_from_database "c1" [(⟨"c1", "Alice", 0, 0, 0, 0, 0⟩ : User)]
          = some u1 ∧
        get_from_database "c1" [(⟨"c1", "Alice", 0, 0, 0, 0, 1⟩ : User)]
          = some u2 ∧
        u1.hours_seconds ≤ u2.hours_seconds ∧ u1.money ≤ u2.money := by
  refine ⟨by decide, by decide, ?_⟩
  exact c4_ingest_monotonic [] ⟨"c1", "Alice"⟩ ⟨"c1", "Alice"⟩ 0 1 _ _ rfl
    (by decide) (by decide)

/-- C5: a message for an existing user arriving within the idle
threshold of the pre-update last_seen_at updates only display_name (to
the message value) and last_seen_at (to now); channel_id, hours_seconds,
hours_nanos, money and first_seen_at are unchanged, and every other
channel's row is untouched. -/
theorem c5_within_threshold_frame (s : List User) (m : ChatMessage)
    (now : Int) (u : User)
    (hu : get_from_database m.channel_id s = some u)
    (_hwithin : now - u.last_seen_at ≤ IDLE_THRESHOLD) :
    ∃ s', processMessage s m now = some s' ∧
      get_from_database m.channel_id s'
        = some { u with display_name := m.display_name, last_seen_at := now } ∧
      ∀ cid, cid ≠ m.channel_id →
        get_from_database cid s' = get_from_database cid s := by
  have hcv : u.channel_id = m.channel_id := channel_of_get s m.channel_id u hu
  refine ⟨_, processMessage_existing s m now u hu, ?_, ?_⟩
  · have h2 : get_from_database u.channel_id (save_to_database s
        { u with display_name := m.display_name, last_seen_at := now })
        = some { u with display_name := m.display_name, last_seen_at := now } :=
      get_save_self s { u with display_name := m.display_name, last_seen_at := now }
    rw [← hcv]
    exact h2
  · intro cid hcid
    have hne : cid ≠ u.channel_id := by rw [hcv]; exact hcid
    exact get_save_other s _ cid hne

/-- C5 witness: Alice last seen at 0 gets a message at 120 s (within the
300 s threshold) carrying the new display name Alice2; only
display_name and last_seen_at change and the other channel c2 is
untouched. -/
theorem c5_within_threshold_frame_witness :
    get_from_database "c1" [(⟨"c1", "Alice", 0, 0, 0, 0, 0⟩ : User)]
      = some (⟨"c1", "Alice", 0, 0, 0, 0, 0⟩ : User)
    ∧ (120000000000 : Int) - 0 ≤ IDLE_THRESHOLD
    ∧ ∃ s', processMessage [(⟨"c1", "Alice", 0, 0, 0, 0, 0⟩ : User)]
          (⟨"c1", "Alice2"⟩ : ChatMessage) 120000000000 = some s' ∧
        get_from_database "c1" s'
          = some (⟨"c1", "Alice2", 0, 0, 0, 0, 120000000000⟩ : User) ∧
        ∀ cid, cid ≠ "c1" →
          get_from_database cid s'
            = get_from_database cid [(⟨"c1", "Alice", 0, 0, 0, 0, 0⟩ : User)] := by
  refine ⟨by decide, by decide, ?_⟩
  exact c5_within_threshold_frame [(⟨"c1", "Alice", 0, 0, 0, 0, 0⟩ : User)]
    ⟨"c1", "Alice2"⟩ 120000000000 ⟨"c1", "Alice", 0, 0, 0, 0, 0⟩
    (by decide) (by decide)

/-- C6: on any user with non-negative accumulated watch time and a
timestamp not before last_seen_at, a non-panicking run of
calculate_hours_and_money stores in hours_seconds the whole seconds of
the composed duration prev + delta, adds exactly
floor(delta_seconds / 60) to money, and leaves last_seen_at unchanged
(delta = now - last_seen_at, prev = hours_seconds s + hours_nanos ns,
both expressed in nanoseconds; division is floor division). -/
theorem c6_calculator_seconds_money (u : User) (now : Int) (u' : User)
    (hhs : 0 ≤ u.hours_seconds) (hhn : 0 ≤ u.hours_nanos)
    (hnow : u.last_seen_at ≤ now)
    (hcall : calculate_hours_and_money u now = some u') :
    u'.hours_seconds
      = (u.hours_seconds * 1000000000 + u.hours_nanos + (now - u.last_seen_at))
          / 1000000000
    ∧ u'.money = u.money + ((now - u.last_seen_at) / 1000000000) / 60
    ∧ u'.last_seen_at = u.last_seen_at := by
  simp only [calculate_hours_and_money, secondsToNanos] at hcall
  have htot : 0 ≤ u.hours_seconds * 1000000000 + u.hours_nanos
      + (now - u.last_seen_at) := by omega
  have hdel : 0 ≤ now - u.last_seen_at := by omega
  cases hns : numNanoseconds (u.hours_seconds * 1000000000 + u.hours_nanos
      + (now - u.last_seen_at)) with
  | none => rw [hns] at hcall; cases hcall
  | some ns =>
    rw [hns] at hcall
    have hu' : u' = { u with
        hours_seconds := numSeconds (u.hours_seconds * 1000000000
          + u.hours_nanos + (now - u.last_seen_at)),
        hours_nanos := asI32 ns,
        money := u.money + numMinutes (now - u.last_seen_at) } :=
      (Option.some.inj hcall).symm
    subst hu'
    refine ⟨?_, ?_, rfl⟩
    · show numSeconds (u.hours_seconds * 1000000000 + u.hours_nanos
        + (now - u.last_seen_at)) = _
      unfold numSeconds
      rw [Int.tdiv_eq_ediv htot (by omega)]
    · show u.money + numMinutes (now - u.last_seen_at) = _
      unfold numMinutes numSeconds
      rw [Int.tdiv_eq_ediv hdel (by omega),
        Int.tdiv_eq_ediv (Int.ediv_nonneg hdel (by omega)) (by omega)]

/-- C6 witness: a fresh user last seen at 0, now = 600 s: the calculator
returns hours_seconds 600 = 600000000000 / 10^9, money 10 = 600 / 60,
and last_seen_at still 0. -/
theorem c6_calculator_seconds_money_witness :
    calculate_hours_and_money (⟨"c1", "Alice", 0, 0, 0, 0, 0⟩ : User) 600000000000
      = some (⟨"c1", "Alice", 600, -1295421440, 10, 0, 0⟩ : User)
    ∧ (600 : Int) = (0 * 1000000000 + 0 + (600000000000 - 0)) / 1000000000
    ∧ (10 : Int) = 0 + ((600000000000 - 0) / 1000000000) / 60
    ∧ (0 : Int) = 0 := by
  have h := c6_calculator_seconds_money (⟨"c1", "Alice", 0, 0, 0, 0, 0⟩ : User)
    600000000000 (⟨"c1", "Alice", 600, -1295421440, 10, 0, 0⟩ : User)
    (by decide) (by decide) (by decide) (by decide)
  exact ⟨by decide, h.1, h.2.1, h.2.2⟩

/-- C7: when no row exists for the message's channel_id, processing the
message appends exactly one row: zero hours_seconds, hours_nanos and
money, the message's display_name, and first_seen_at = last_seen_at =
now; the rest of the store is unchanged. -/
theorem c7_create_on_first_contact (s : List User) (m : ChatMessage)
    (now : Int) (h : check_if_exists m.channel_id s = false) :
    processMessage s m now
      = some (s ++ [(⟨m.channel_id, m.display_name, 0, 0, 0, now, now⟩ : User)]) := by
  rw [processMessage_new s m now h]
  unfold save_to_database
  rw [if_neg (by simp only [User.new]; simp [h])]
  rfl

/-- C7 witness: an empty store and one message for c1 at t = 7 yield
exactly the single zero-counter row for c1. -/
theorem c7_create_on_first_contact_witness :
    check_if_exists "c1" [] = false
    ∧ processMessage [] (⟨"c1", "Alice"⟩ : ChatMessage) 7
      = some ([] ++ [(⟨"c1", "Alice", 0, 0, 0, 7, 7⟩ : User)]) := by
  exact ⟨by decide, c7_create_on_first_contact [] ⟨"c1", "Alice"⟩ 7 (by decide)⟩

/-! ## FilterUsers lemmas -/

theorem buildPreds_of_all_isSome : ∀ fs : List BppUserFilter,
    (∀ f ∈ fs, f.filter.isSome) → ∃ ps, buildPreds fs = some ps := by
  intro fs
  induction fs with
  | nil => intro _; exact ⟨[], rfl⟩
  | cons f fs ih =>
    intro h
    have hf : f.filter.isSome := h f (List.mem_cons_self f fs)
    obtain ⟨v, hv⟩ := Option.isSome_iff_exists.1 hf
    obtain ⟨ps, hps⟩ := ih (fun x hx => h x (List.mem_cons_of_mem f hx))
    exact ⟨filterPred v :: ps, by simp [buildPreds, hv, hps]⟩

theorem all_buildPreds_eq_matches : ∀ (fs : List BppUserFilter)
    (ps : List (User → Bool)), buildPreds fs = some ps →
    ∀ u, ps.all (fun p => p u) = matchesAllFilters fs u := by
  intro fs
  induction fs with
  | nil =>
    intro ps hps u
    have hnil : ps = [] := (Option.some.inj hps).symm
    subst hnil
    simp [matchesAllFilters]
  | cons f fs ih =>
    intro ps hps u
    unfold buildPreds at hps
    cases hf : f.filter with
    | none => rw [hf] at hps; cases hps
    | some v =>
      rw [hf] at hps
      cases hrec : buildPreds fs with
      | none => rw [hrec] at hps; cases hps
      | some ps2 =>
        rw [hrec] at hps
        have hcons : ps = filterPred v :: ps2 := (Option.some.inj hps).symm
        subst hcons
        simp [List.all_cons, matchesAllFilters, hf, ih ps2 hrec u]

theorem length_insertSorted (le : User → User → Bool) (u : User) :
    ∀ l : List User, (insertSorted le u l).length = l.length + 1 := by
  intro l
  induction l with
  | nil => rfl
  | cons v vs ih =>
    unfold insertSorted
    by_cases h : le u v
    · rw [if_pos h]; rfl
    · rw [if_neg h]
      simp [ih]

theorem length_sortBy (le : User → User → Bool) :
    ∀ l : List User, (sortBy le l).length = l.length := by
  intro l
  induction l with
  | nil => rfl
  | cons v vs ih =>
    unfold sortBy
    rw [length_insertSorted, ih]
    rfl

theorem length_applySorting (o : SortingFields) (l : List User) :
    (applySorting o l).length = l.length := by
  unfold applySorting
  cases hle : leFor o with
  | none => rfl
  | some le => exact length_sortBy le l

theorem asI32_small (n : Int) (h0 : 0 ≤ n) (h1 : n < 2147483648) :
    asI32 n = n := by
  have he : n % 4294967296 = n := Int.emod_eq_of_lt h0 (by omega)
  simp [asI32, he, h1]

/-- C8: for requests whose clauses all carry a present oneof, the
filter_users handler (i) turns a failed store read into an internal
error, (ii) answers with count equal to the length of the returned user
list (the i32 cast is the identity for any table of fewer than 2^31
rows), (iii) returns exactly the rows satisfying the AND of all filter
clauses, in the requested order, projected to views, and (iv) for an
empty filter list with default order returns all persisted users. -/
theorem c8_filter_users_contract (g : String → List BppGroup) :
    (∀ req : BppUserFilters, (∀ f ∈ req.filters, f.filter.isSome) →
      filter_users g (Except.error ()) req
        = some (Except.error GrpcStatus.internal))
    ∧ (∀ (table : List User) (req : BppUserFilters) (resp : BppUsers),
        filter_users g (Except.ok table) req = some (Except.ok resp) →
        table.length < 2147483648 →
        resp.count = resp.users.length)
    ∧ (∀ (table : List User) (req : BppUserFilters) (resp : BppUsers),
        filter_users g (Except.ok table) req = some (Except.ok resp) →
        resp.users = (applySorting req.sorting
          (table.filter (matchesAllFilters req.filters))).map
            (to_userservice_user g))
    ∧ (∀ (table : List User) (resp : BppUsers),
        filter_users g (Except.ok table)
            { filters := [], sorting := SortingFields.defaultOrder }
          = some (Except.ok resp) →
        resp.users = table.map (to_userservice_user g)) := by
  have hmain : ∀ (table : List User) (req : BppUserFilters) (resp : BppUsers),
      filter_users g (Except.ok table) req = some (Except.ok resp) →
      resp.users = (applySorting req.sorting
        (table.filter (matchesAllFilters req.filters))).map
          (to_userservice_user g)
      ∧ resp.count = asI32 resp.users.length := by
    intro table req resp hcall
    unfold filter_users at hcall
    cases hps : buildPreds req.filters with
    | none => rw [hps] at hcall; cases hcall
    | some ps =>
      rw [hps] at hcall
      have hresp := Except.ok.inj (Option.some.inj hcall)
      subst hresp
      have hfil : table.filter (fun u => ps.all (fun p => p u))
          = table.filter (matchesAllFilters req.filters) :=
        List.filter_congr
          (fun u _ => all_buildPreds_eq_matches req.filters ps hps u)
      constructor
      · show (applySorting req.sorting
            (table.filter (fun u => ps.all (fun p => p u)))).map
              (to_userservice_user g) = _
        rw [hfil]
      · dsimp only []
  refine ⟨?_, ?_, ?_, ?_⟩
  · intro req h
    obtain ⟨ps, hps⟩ := buildPreds_of_all_isSome req.filters h
    unfold filter_users
    rw [hps]
  · intro table req resp hcall hlen
    obtain ⟨husers, hcount⟩ := hmain table req resp hcall
    rw [hcount]
    have hle : resp.users.length ≤ table.length := by
      rw [husers, List.length_map, length_applySorting]
      exact List.length_filter_le _ table
    refine asI32_small _ (by exact_mod_cast Nat.zero_le _) ?_
    exact_mod_cast lt_of_le_of_lt (by exact_mod_cast hle) hlen
  · intro table req resp hcall
    exact (hmain table req resp hcall).1
  · intro table resp hcall
    rw [(hmain table _ resp hcall).1]
    have hfil : table.filter (matchesAllFilters []) = table := by
      calc table.filter (matchesAllFilters [])
          = table.filter (fun _ => true) :=
            List.filter_congr (fun u _ => rfl)
        _ = table := by simp
    rw [show applySorting SortingFields.defaultOrder
          (table.filter (matchesAllFilters []))
        = table.filter (matchesAllFilters []) from rfl, hfil]

/-- C8 witness: with no groups, a failed read yields internal for the
empty request; on the one-row table for c1 the empty request returns the
single view with count 1, which also instantiates the AND-semantics and
return-all conjuncts. -/
theorem c8_filter_users_contract_witness :
    filter_users (fun _ => []) (Except.error ())
        { filters := [], sorting := SortingFields.defaultOrder }
      = some (Except.error GrpcStatus.internal)
    ∧ (filter_users (fun _ => []) (Except.ok [(⟨"c1", "Alice", 0, 0, 0, 0, 0⟩ : User)])
          { filters := [], sorting := SortingFields.defaultOrder }
        = some (Except.ok (⟨[⟨"c1", "Alice", 0, 0, 0, 0, 0, []⟩], 1⟩ : BppUsers)))
    ∧ ((⟨[⟨"c1", "Alice", 0, 0, 0, 0, 0, []⟩], 1⟩ : BppUsers).count
        = (⟨[⟨"c1", "Alice", 0, 0, 0, 0, 0, []⟩], 1⟩ : BppUsers).users.length)
    ∧ ((⟨[⟨"c1", "Alice", 0, 0, 0, 0, 0, []⟩], 1⟩ : BppUsers).users
        = (applySorting SortingFields.defaultOrder
            ([(⟨"c1", "Alice", 0, 0, 0, 0, 0⟩ : User)].filter
              (matchesAllFilters []))).map (to_userservice_user (fun _ => [])))
    ∧ ((⟨[⟨"c1", "Alice", 0, 0, 0, 0, 0, []⟩], 1⟩ : BppUsers).users
        = [(⟨"c1", "Alice", 0, 0, 0, 0, 0⟩ : User)].map
            (to_userservice_user (fun _ => []))) := by
  refine ⟨?_, rfl, ?_, ?_, ?_⟩
  · exact (c8_filter_users_contract (fun _ => [])).1
      { filters := [], sorting := SortingFields.defaultOrder }
      (fun f hf => absurd hf (List.not_mem_nil f))
  · exact (c8_filter_users_contract (fun _ => [])).2.1
      [(⟨"c1", "Alice", 0, 0, 0, 0, 0⟩ : User)]
      { filters := [], sorting := SortingFields.defaultOrder } _ rfl (by decide)
  · exact (c8_filter_users_contract (fun _ => [])).2.2.1
      [(⟨"c1", "Alice", 0, 0, 0, 0, 0⟩ : User)]
      { filters := [], sorting := SortingFields.defaultOrder } _ rfl
  · exact (c8_filter_users_contract (fun _ => [])).2.2.2
      [(⟨"c1", "Alice", 0, 0, 0, 0, 0⟩ : User)] _ rfl

/-- C9 counterexample: the claim says CreateUser answers with an
unimplemented error status.  The source body is a todo stub, which
panics: the handler produces no response at all (modelled as none), so
in particular not an unimplemented status, refuting the claim at this
concrete request. -/
theorem c9_create_user_panics_counterexample :
    (create_user [] (⟨"c1", "Alice", 0, 0, 0, 0, 0, []⟩ : BppUser)).2 = none
    ∧ (create_user [] (⟨"c1", "Alice", 0, 0, 0, 0, 0, []⟩ : BppUser)).2
      ≠ some (Except.error GrpcStatus.unimplemented) := by
  exact ⟨rfl, by simp [create_user]⟩

/-- C9 amended: every administrative endpoint (CreateUser,
UpdateUser(s), DeleteUser(s), UserHasPermission and the Group and Rank
endpoints) is a todo stub: on any request it panics, producing no
response — in particular no unimplemented status — and leaves the store
unchanged (no row written). -/
theorem c9_admin_stubs_panic_write_nothing (store : List User)
    (r1 : BppUser) (r2 : BppUsersMsg) (r3 : UserPermissionCheck)
    (r4 : BppGroup) (r5 : BppGroups) (r6 : CreateBppGroup)
    (r7 : BppRank) (r8 : BppRanks) (r9 : CreateBppRank) :
    update_user store r1 = (store, none)
    ∧ update_users store r2 = (store, none)
    ∧ delete_user store r1 = (store, none)
    ∧ delete_users store r2 = (store, none)
    ∧ create_user store r1 = (store, none)
    ∧ user_has_permission store r3 = (store, none)
    ∧ get_groups store () = (store, none)
    ∧ update_group store r4 = (store, none)
    ∧ update_groups store r5 = (store, none)
    ∧ delete_group store r4 = (store, none)
    ∧ delete_groups store r5 = (store, none)
    ∧ create_group store r6 = (store, none)
    ∧ get_ranks store () = (store, none)
    ∧ update_rank store r7 = (store, none)
    ∧ update_ranks store r8 = (store, none)
    ∧ delete_rank store r7 = (store, none)
    ∧ delete_ranks store r8 = (store, none)
    ∧ create_rank store r9 = (store, none) := by
  exact ⟨rfl, rfl, rfl, rfl, rfl, rfl, rfl, rfl, rfl, rfl, rfl, rfl, rfl,
    rfl, rfl, rfl, rfl, rfl⟩

/-- C10: a FilterUsers request containing a clause whose inner oneof is
absent makes the handler unwrap a None option: it panics (none) instead
of answering with any status, even on a healthy store. -/
theorem c10_filter_users_panics_on_absent_variant :
    filter_users (fun _ => []) (Except.ok [])
        { filters := [({ filter := none } : BppUserFilter)],
          sorting := SortingFields.defaultOrder }
      = none := by
  rfl
